import Mathlib

/-!
Shallow embedding of the MAC scheduler HARQ state machine of
`lib/mac/sched/sched_harq.cc` (namespace `srsgnb`), together with the
double-buffered event list of `lib/scheduler/event_manager.h`.

The `.cc` file is the authority for every operation body.  The class header
(`sched_harq.h`) and the auxiliary types `slot_point` and `prb_grant` are not
part of the provided sources, so their trivial accessors and data layout are
modelled from the specification's data model (single-codeword HARQ process,
slot identifier with numerology, type-0 bitmap / type-1 interval grants).
-/

namespace srsgnb

/-- Modelled from the spec: `slot_point` is an integer slot count plus a
numerology (subcarrier-spacing index) that determines slots-per-frame.
Ordering and subtraction act on the count; comparisons are only meaningful
between points of the same numerology.  The modular wrap of the count is
abstracted to a monotone counter. -/
structure slot_point where
  numerology : Nat
  count : Nat
deriving DecidableEq

/-- Modelled from the spec: slot distance `a - b`. -/
def slot_point.sub (a b : slot_point) : Nat :=
  a.count - b.count

/-- Modelled from the spec: the slot index within the radio frame
(`10 * 2 ^ numerology` slots per frame). -/
def slot_point.slot_index (s : slot_point) : Nat :=
  s.count % (10 * 2 ^ s.numerology)

/-- Modelled from the spec: a PRB allocation, either a type-0 RBG bitmap or a
type-1 contiguous interval of PRBs. -/
inductive prb_grant where
  | alloc_type0 (rbg_bitmap : List Bool)
  | alloc_type1 (start stop : Nat)
deriving DecidableEq

/-- Modelled from the spec: `is_alloc_type0()`. -/
def prb_grant.is_alloc_type0 : prb_grant → Bool
  | .alloc_type0 _ => true
  | .alloc_type1 _ _ => false

/-- Modelled from the spec: `is_alloc_type1()`. -/
def prb_grant.is_alloc_type1 : prb_grant → Bool
  | .alloc_type0 _ => false
  | .alloc_type1 _ _ => true

/-- Modelled from the spec: `rbgs().count()`, the number of RBGs set in a
type-0 bitmap (only queried on type-0 grants in the source). -/
def prb_grant.rbg_count : prb_grant → Nat
  | .alloc_type0 bm => bm.count true
  | .alloc_type1 _ _ => 0

/-- Modelled from the spec: `prbs().length()`, the contiguous PRB length of a
type-1 interval (only queried on type-1 grants in the source). -/
def prb_grant.prb_length : prb_grant → Nat
  | .alloc_type0 _ => 0
  | .alloc_type1 a b => b - a

/-- The three transport-block states of `tb_t::state_t`. -/
inductive state_t where
  | empty
  | waiting_ack
  | pending_retx
deriving DecidableEq

/-- The per-codeword transport-block record `tb_t` (spec data model:
`ndi`, `ack_state`, `state`, `n_rtx`, `mcs`, `tbs`). -/
structure tb_t where
  ndi : Bool
  ack_state : Bool
  state : state_t
  n_rtx : Nat
  mcs : Nat
  tbs : Nat
deriving DecidableEq

/-- `std::numeric_limits<uint32_t>::max()`. -/
def uint32_max : Nat := 2 ^ 32 - 1

/-- The HARQ process.  Per the spec's single-codeword model the process owns
one `tb_t` (the source only ever touches `tb[0]`; `ack_info`'s `tb_idx`
argument is 0 throughout). -/
structure harq_proc where
  pid : Nat
  tb : tb_t
  max_retx : Nat
  slot_tx : slot_point
  slot_ack : slot_point
  prbs_ : prb_grant
deriving DecidableEq

/-- Modelled from the spec: accessor `empty()` — the process is free, i.e.
its transport block is in state `empty`. -/
def harq_proc.empty (h : harq_proc) : Bool :=
  h.tb.state == state_t.empty

/-- Modelled from the spec: accessor `nof_retx()` — the retransmission
counter `n_rtx`. -/
def harq_proc.nof_retx (h : harq_proc) : Nat :=
  h.tb.n_rtx

/-- Modelled from the spec: accessor `max_nof_retx()` — the configured
retransmission budget. -/
def harq_proc.max_nof_retx (h : harq_proc) : Nat :=
  h.max_retx

/-- Modelled from the spec: accessor `ndi()`. -/
def harq_proc.ndi (h : harq_proc) : Bool :=
  h.tb.ndi

/-- Modelled from the spec: accessor `mcs()`. -/
def harq_proc.mcs (h : harq_proc) : Nat :=
  h.tb.mcs

/-- `harq_proc::new_slot(slot_point slot_rx)`: no-op when empty or while the
ACK slot has not yet arrived; otherwise the implicit-NACK transition
`waiting_ack → pending_retx`, followed by the discard check
`nof_retx() + 1 > max_nof_retx()` that clears the process to `empty`. -/
def harq_proc.new_slot (h : harq_proc) (slot_rx : slot_point) : harq_proc :=
  if h.empty then h
  else if slot_rx.count < h.slot_ack.count then h
  else
    let h1 :=
      if h.tb.state = state_t.waiting_ack then
        { h with tb := { h.tb with state := state_t.pending_retx } }
      else h
    if h1.nof_retx + 1 > h1.max_nof_retx then
      { h1 with tb := { h1.tb with state := state_t.empty } }
    else h1

/-- `harq_proc::ack_info(uint32_t tb_idx, bool ack)` at the single codeword
`tb_idx = 0`: returns `-1` on an empty process; otherwise records the ack
state, moves to `empty` (positive) or `pending_retx` (negative), and returns
`tbs` on a positive ack and `0` on a negative one. -/
def harq_proc.ack_info (h : harq_proc) (ack : Bool) : Int × harq_proc :=
  if h.empty then (-1, h)
  else
    let h1 := { h with tb := { h.tb with
      ack_state := ack,
      state := if ack then state_t.empty else state_t.pending_retx } }
    (if ack then (h.tb.tbs : Int) else 0, h1)

/-- `harq_proc::reset()`. -/
def harq_proc.reset (h : harq_proc) : harq_proc :=
  { h with tb := { h.tb with
    ack_state := false,
    state := state_t.empty,
    n_rtx := 0,
    mcs := uint32_max,
    tbs := uint32_max } }

/-- `harq_proc::new_tx(slot_tx_, slot_ack_, grant, mcs, max_retx_)`: fails
unless the process is empty; otherwise resets, stores budget/slots/grant,
toggles `ndi`, stores `mcs`, zeroes `tbs` and moves to `waiting_ack`. -/
def harq_proc.new_tx (h : harq_proc) (slot_tx_ slot_ack_ : slot_point)
    (grant : prb_grant) (mcs max_retx_ : Nat) : Bool × harq_proc :=
  if !h.empty then (false, h)
  else
    let h0 := h.reset
    (true, { h0 with
      max_retx := max_retx_,
      slot_tx := slot_tx_,
      slot_ack := slot_ack_,
      prbs_ := grant,
      tb := { h0.tb with
        ndi := !h0.tb.ndi,
        mcs := mcs,
        tbs := 0,
        state := state_t.waiting_ack } })

/-- `harq_proc::set_tbs(uint32_t tbs)`. -/
def harq_proc.set_tbs (h : harq_proc) (tbs : Nat) : Bool × harq_proc :=
  if h.empty ∨ h.nof_retx > 0 then (false, h)
  else (true, { h with tb := { h.tb with tbs := tbs } })

/-- `harq_proc::set_mcs(uint32_t mcs)`. -/
def harq_proc.set_mcs (h : harq_proc) (mcs : Nat) : Bool × harq_proc :=
  if h.empty ∨ h.nof_retx > 0 then (false, h)
  else (true, { h with tb := { h.tb with mcs := mcs } })

/-- `harq_proc::new_retx(slot_tx_, slot_ack_)` (grant-less overload): fails
unless `pending_retx`; otherwise re-arms the process: new slots,
`waiting_ack`, ack flag cleared, retransmission counter incremented. -/
def harq_proc.new_retx (h : harq_proc) (slot_tx_ slot_ack_ : slot_point) :
    Bool × harq_proc :=
  if h.tb.state ≠ state_t.pending_retx then (false, h)
  else
    (true, { h with
      slot_tx := slot_tx_,
      slot_ack := slot_ack_,
      tb := { h.tb with
        state := state_t.waiting_ack,
        ack_state := false,
        n_rtx := h.tb.n_rtx + 1 } })

/-- `harq_proc::new_retx(slot_tx_, slot_ack_, grant)` (grant-taking
overload): first the allocation-shape check against the stored grant, then
the grant-less overload, then the grant is stored on success. -/
def harq_proc.new_retx_grant (h : harq_proc) (slot_tx_ slot_ack_ : slot_point)
    (grant : prb_grant) : Bool × harq_proc :=
  if grant.is_alloc_type0 ≠ h.prbs_.is_alloc_type0
      ∨ (grant.is_alloc_type0 = true ∧ grant.rbg_count ≠ h.prbs_.rbg_count)
      ∨ (grant.is_alloc_type1 = true ∧ grant.prb_length ≠ h.prbs_.prb_length)
  then (false, h)
  else
    match h.new_retx slot_tx_ slot_ack_ with
    | (true, h1) => (true, { h1 with prbs_ := grant })
    | (false, h1) => (false, h1)

/-- The DCI formats distinguished by `dl_harq_proc::fill_dci`. -/
inductive dci_format where
  | f1_0
  | f1_1
deriving DecidableEq

/-- The downlink DCI fields populated by `dl_harq_proc::fill_dci`
(`ctx.format` is reduced to the format tag the source inspects). -/
structure dci_dl_t where
  format : dci_format
  pid : Nat
  ndi : Bool
  mcs : Nat
  rv : Nat
  harq_feedback : Nat
deriving DecidableEq

/-- The uplink DCI fields populated by `ul_harq_proc::fill_dci`. -/
structure dci_ul_t where
  pid : Nat
  ndi : Bool
  mcs : Nat
  rv : Nat
deriving DecidableEq

/-- The fixed redundancy-version schedule `rv_idx[4] = {0, 2, 3, 1}`. -/
def rv_idx : List Nat := [0, 2, 3, 1]

/-- The downlink HARQ process: the base process plus the pending PDU
(cleared on every new transmission). -/
structure dl_harq_proc where
  base : harq_proc
  pdu : List Nat
deriving DecidableEq

/-- `dl_harq_proc::fill_dci(dci_dl_t& dci)`. -/
def dl_harq_proc.fill_dci (h : dl_harq_proc) (dci : dci_dl_t) : dci_dl_t :=
  { dci with
    pid := h.base.pid,
    ndi := h.base.ndi,
    mcs := h.base.mcs,
    rv := rv_idx.getD (h.base.nof_retx % 4) 0,
    harq_feedback :=
      if dci.format = dci_format.f1_0 then
        (h.base.slot_ack.sub h.base.slot_tx) - 1
      else
        h.base.slot_tx.slot_index }

/-- `dl_harq_proc::new_tx(...)`: on success of the base `new_tx`, clears the
PDU and fills the DCI. -/
def dl_harq_proc.new_tx (h : dl_harq_proc) (slot_tx slot_ack : slot_point)
    (grant : prb_grant) (mcs_ max_retx : Nat) (dci : dci_dl_t) :
    Bool × dl_harq_proc × dci_dl_t :=
  match h.base.new_tx slot_tx slot_ack grant mcs_ max_retx with
  | (true, b) =>
      let h1 : dl_harq_proc := { base := b, pdu := [] }
      (true, h1, h1.fill_dci dci)
  | (false, b) => (false, { h with base := b }, dci)

/-- `dl_harq_proc::new_retx(...)`: on success of the grant-taking base
`new_retx`, fills the DCI. -/
def dl_harq_proc.new_retx (h : dl_harq_proc) (slot_tx slot_ack : slot_point)
    (grant : prb_grant) (dci : dci_dl_t) : Bool × dl_harq_proc × dci_dl_t :=
  match h.base.new_retx_grant slot_tx slot_ack grant with
  | (true, b) =>
      let h1 : dl_harq_proc := { h with base := b }
      (true, h1, h1.fill_dci dci)
  | (false, b) => (false, { h with base := b }, dci)

/-- The uplink HARQ process wrapper. -/
structure ul_harq_proc where
  base : harq_proc
deriving DecidableEq

/-- `ul_harq_proc::fill_dci(dci_ul_t& dci)`. -/
def ul_harq_proc.fill_dci (h : ul_harq_proc) (dci : dci_ul_t) : dci_ul_t :=
  { dci with
    pid := h.base.pid,
    ndi := h.base.ndi,
    mcs := h.base.mcs,
    rv := rv_idx.getD (h.base.nof_retx % 4) 0 }

/-- `ul_harq_proc::new_tx(slot_tx, grant, mcs_, max_retx, dci)`: the base
`new_tx` with `slot_ack = slot_tx`, then `fill_dci` on success. -/
def ul_harq_proc.new_tx (h : ul_harq_proc) (slot_tx : slot_point)
    (grant : prb_grant) (mcs_ max_retx : Nat) (dci : dci_ul_t) :
    Bool × ul_harq_proc × dci_ul_t :=
  match h.base.new_tx slot_tx slot_tx grant mcs_ max_retx with
  | (true, b) =>
      let h1 : ul_harq_proc := { base := b }
      (true, h1, h1.fill_dci dci)
  | (false, b) => (false, { base := b }, dci)

/-- `ul_harq_proc::new_retx(slot_tx, grant, dci)`. -/
def ul_harq_proc.new_retx (h : ul_harq_proc) (slot_tx : slot_point)
    (grant : prb_grant) (dci : dci_ul_t) : Bool × ul_harq_proc × dci_ul_t :=
  match h.base.new_retx_grant slot_tx slot_tx grant with
  | (true, b) =>
      let h1 : ul_harq_proc := { base := b }
      (true, h1, h1.fill_dci dci)
  | (false, b) => (false, { base := b }, dci)

/-- The double-buffered event list of `event_manager` (header
`lib/scheduler/event_manager.h`): `next_events` stores events enqueued for
the next slot indication, `current_events` the events being processed in the
current slot. -/
structure event_list (α : Type) where
  next_events : List α
  current_events : List α
deriving DecidableEq

/-- Producer side, modelled from the spec: every feedback handler appends its
event to the `next_events` buffer (under the per-list mutex, abstracted
away). -/
def event_list.enqueue {α : Type} (l : event_list α) (e : α) : event_list α :=
  { l with next_events := l.next_events ++ [e] }

/-- Slot-start buffer exchange, modelled from the spec and the header
comment: `next_events` is transferred to `current_events` via `std::swap`. -/
def event_list.slot_swap {α : Type} (l : event_list α) : event_list α :=
  { next_events := l.current_events, current_events := l.next_events }

/-- Modelled from the spec: the consumer drains `current_events`, executing
each event exactly once in FIFO order, leaving the buffer cleared. -/
def event_list.drain {α : Type} (l : event_list α) : List α × event_list α :=
  (l.current_events, { l with current_events := [] })

/-- One slot of the event-manager protocol, modelled from the spec: at the
slot boundary the buffers are swapped and `current_events` is drained; the
events produced during the slot (`enqs`, in arrival order) are then appended
to `next_events`.  Returns the events visible (applied) during this slot. -/
def run_slot {α : Type} (l : event_list α) (enqs : List α) :
    List α × event_list α :=
  let l1 := l.slot_swap
  let (drained, l2) := l1.drain
  (drained, enqs.foldl event_list.enqueue l2)

/-- The per-slot drain lists of a run over consecutive slots: `ess` gives,
for each slot, the events enqueued by producers while that slot was being
processed. -/
def run_trace {α : Type} (l : event_list α) : List (List α) → List (List α)
  | [] => []
  | enqs :: rest => (run_slot l enqs).1 :: run_trace (run_slot l enqs).2 rest

/-- Modelled from the spec: a freshly constructed HARQ process
(`harq_proc(uint32_t id_)`, header not in the sources): created `empty`,
with counters zeroed and the new-data indicator initially cleared. -/
def harq_proc.init (pid : Nat) : harq_proc :=
  { pid := pid,
    tb := { ndi := false, ack_state := false, state := state_t.empty,
            n_rtx := 0, mcs := 0, tbs := 0 },
    max_retx := 0,
    slot_tx := { numerology := 0, count := 0 },
    slot_ack := { numerology := 0, count := 0 },
    prbs_ := prb_grant.alloc_type1 0 0 }

/-- Shorthand for a numerology-0 slot point. -/
def sl (n : Nat) : slot_point :=
  { numerology := 0, count := n }

/-- The grant used by the Scenario A fixture. -/
def scenarioA_grant : prb_grant := prb_grant.alloc_type1 0 4

/-- Scenario A starting state: `new_tx` at slot 10 with ack slot 14,
`max_retx = 4`, on a fresh process. -/
def scenarioA_h1 : harq_proc :=
  ((harq_proc.init 0).new_tx (sl 10) (sl 14) scenarioA_grant 5 4).2

/-- One implicit-NACK retransmission cycle of Scenario A: `new_slot` reaches
the expected ack slot with no `ack_info` ever delivered, and the scheduler
then grants a retransmission via `new_retx` with feedback expected four
slots later. -/
def scenarioA_cycle (h : harq_proc) : harq_proc :=
  let h1 := h.new_slot h.slot_ack
  (h1.new_retx h1.slot_ack
    { numerology := h1.slot_ack.numerology, count := h1.slot_ack.count + 4 }).2

/-- Concrete process used to instantiate hypotheses of the claim theorems:
`waiting_ack` with the retransmission budget already used up
(`n_rtx = max_retx = 4`). -/
def exhausted_h : harq_proc :=
  { pid := 0,
    tb := { ndi := true, ack_state := false, state := state_t.waiting_ack,
            n_rtx := 4, mcs := 3, tbs := 100 },
    max_retx := 4,
    slot_tx := sl 26,
    slot_ack := sl 30,
    prbs_ := scenarioA_grant }

/-- Concrete process in `pending_retx`, used to instantiate hypotheses. -/
def pending_h : harq_proc :=
  { pid := 2,
    tb := { ndi := false, ack_state := false, state := state_t.pending_retx,
            n_rtx := 1, mcs := 7, tbs := 320 },
    max_retx := 4,
    slot_tx := sl 20,
    slot_ack := sl 24,
    prbs_ := prb_grant.alloc_type0 [true, true, false, true] }

/-- C1: a HARQ process given `max_retx` budget by `new_tx` and already
retransmitted exactly `max_retx` times is discarded (state `empty`) by the
first `new_slot` whose rx slot has reached the expected ack slot with no
`ack_info` received; and in Scenario A (`max_retx = 4`, `new_tx` at slot 10
with ack slot 14, no `ack_info` ever), each of the first four cycles performs
one implicit-NACK retransmission (`n_rtx = k`, still `waiting_ack`), and the
fifth ack timeout empties the process — exactly 4 retransmission cycles. -/
theorem retx_limit_discard (h : harq_proc) (slot_rx : slot_point)
    (hw : h.tb.state = state_t.waiting_ack)
    (hn : h.tb.n_rtx = h.max_retx)
    (hs : h.slot_ack.count ≤ slot_rx.count) :
    (h.new_slot slot_rx).tb.state = state_t.empty ∧
    (∀ k, k ≤ 4 →
      ((scenarioA_cycle^[k]) scenarioA_h1).tb.state = state_t.waiting_ack ∧
      ((scenarioA_cycle^[k]) scenarioA_h1).tb.n_rtx = k) ∧
    (((scenarioA_cycle^[4]) scenarioA_h1).new_slot
        ((scenarioA_cycle^[4]) scenarioA_h1).slot_ack).tb.state
      = state_t.empty := by
  refine ⟨?_, by decide, by decide⟩
  have hlt : ¬ slot_rx.count < h.slot_ack.count := Nat.not_lt.mpr hs
  simp [harq_proc.new_slot, harq_proc.empty, harq_proc.nof_retx,
        harq_proc.max_nof_retx, hw, hn, hlt]

/-- C1 witness: the discard fires on a concrete exhausted process at its ack
slot, and the Scenario A facts hold. -/
theorem retx_limit_discard_witness :
    (exhausted_h.new_slot (sl 30)).tb.state = state_t.empty :=
  (retx_limit_discard exhausted_h (sl 30) rfl rfl (by decide)).1

/-- C2: in one `new_slot` call with `rx_slot ≥ slot_ack` on a process in
`waiting_ack`, the discard check runs after the implicit-NACK transition, so
a process whose retransmission budget is exhausted goes from `waiting_ack`
all the way to `empty` in that same call. -/
theorem new_slot_discard_same_call (h : harq_proc) (slot_rx : slot_point)
    (hw : h.tb.state = state_t.waiting_ack)
    (hs : h.slot_ack.count ≤ slot_rx.count)
    (hb : h.max_retx ≤ h.tb.n_rtx) :
    (h.new_slot slot_rx).tb.state = state_t.empty := by
  have hlt : ¬ slot_rx.count < h.slot_ack.count := Nat.not_lt.mpr hs
  have hgt : h.tb.n_rtx + 1 > h.max_retx := Nat.lt_succ_of_le hb
  simp [harq_proc.new_slot, harq_proc.empty, harq_proc.nof_retx,
        harq_proc.max_nof_retx, hw, hlt, hgt]

/-- C2 witness: a concrete `waiting_ack` process with exhausted budget is
emptied by the `new_slot` call at its ack slot. -/
theorem new_slot_discard_same_call_witness :
    (exhausted_h.new_slot (sl 31)).tb.state = state_t.empty :=
  new_slot_discard_same_call exhausted_h (sl 31) rfl (by decide) (by decide)

/-- C3: `new_tx` succeeds iff the process is `empty`; right after a
successful `new_tx` the state is `waiting_ack` and `ndi` has flipped
relative to its value before the call. -/
theorem new_tx_iff_empty (h : harq_proc) (a b : slot_point) (g : prb_grant)
    (m r : Nat) :
    ((h.new_tx a b g m r).1 = true ↔ h.tb.state = state_t.empty) ∧
    (h.tb.state = state_t.empty →
      (h.new_tx a b g m r).2.tb.state = state_t.waiting_ack ∧
      (h.new_tx a b g m r).2.tb.ndi = !h.tb.ndi) := by
  constructor
  · by_cases he : h.tb.state = state_t.empty <;>
      simp [harq_proc.new_tx, harq_proc.empty, he]
  · intro he
    simp [harq_proc.new_tx, harq_proc.empty, he, harq_proc.reset]

/-- C3 witness: on a concrete fresh (empty, `ndi = false`) process `new_tx`
succeeds, leaves `waiting_ack` and a toggled `ndi`. -/
theorem new_tx_iff_empty_witness :
    ((harq_proc.init 0).new_tx (sl 10) (sl 14) scenarioA_grant 5 4).1 = true ∧
    ((harq_proc.init 0).new_tx (sl 10) (sl 14) scenarioA_grant 5 4).2.tb.state
      = state_t.waiting_ack ∧
    ((harq_proc.init 0).new_tx (sl 10) (sl 14) scenarioA_grant 5 4).2.tb.ndi
      = !(harq_proc.init 0).tb.ndi :=
  ⟨(new_tx_iff_empty (harq_proc.init 0) (sl 10) (sl 14) scenarioA_grant 5 4).1.mpr rfl,
   ((new_tx_iff_empty (harq_proc.init 0) (sl 10) (sl 14) scenarioA_grant 5 4).2 rfl).1,
   ((new_tx_iff_empty (harq_proc.init 0) (sl 10) (sl 14) scenarioA_grant 5 4).2 rfl).2⟩

/-- C4: `ack_info` on an empty process returns the sentinel `-1` and changes
nothing; on a non-empty process a positive ACK empties the process and
returns the stored `tbs` (in particular the value previously set by a
successful `set_tbs`), and a negative ACK moves it to `pending_retx` and
returns 0. -/
theorem ack_info_spec (h : harq_proc) (a : Bool) (t : Nat) :
    (h.tb.state = state_t.empty → h.ack_info a = (-1, h)) ∧
    (h.tb.state ≠ state_t.empty →
      (h.ack_info true).2.tb.state = state_t.empty ∧
      (h.ack_info true).1 = (h.tb.tbs : Int) ∧
      (h.ack_info false).2.tb.state = state_t.pending_retx ∧
      (h.ack_info false).1 = 0) ∧
    ((h.set_tbs t).1 = true → ((h.set_tbs t).2.ack_info true).1 = (t : Int)) := by
  refine ⟨?_, ?_, ?_⟩
  · intro he
    simp [harq_proc.ack_info, harq_proc.empty, he]
  · intro he
    simp [harq_proc.ack_info, harq_proc.empty, he]
  · intro hok
    by_cases hc : h.empty = true ∨ h.nof_retx > 0
    · simp [harq_proc.set_tbs, hc] at hok
    · push_neg at hc
      obtain ⟨he, hr⟩ := hc
      have he' : ¬ h.tb.state = state_t.empty := by
        simpa [harq_proc.empty] using he
      have hr0 : h.tb.n_rtx = 0 := by
        simpa [harq_proc.nof_retx] using Nat.le_zero.mp hr
      simp [harq_proc.set_tbs, harq_proc.empty, harq_proc.nof_retx, he', hr0,
            harq_proc.ack_info]

/-- C4 witness: Scenario B — a positive `ack_info` on a concrete empty
process returns `-1` and leaves the process unchanged; and on a non-empty
process with `tbs` set to 320 it returns 320. -/
theorem ack_info_spec_witness :
    (harq_proc.init 3).ack_info true = (-1, harq_proc.init 3) ∧
    (pending_h.ack_info true).1 = (320 : Int) :=
  ⟨(ack_info_spec (harq_proc.init 3) true 0).1 rfl,
   ((ack_info_spec pending_h true 0).2.1 (by decide)).2.1⟩

/-- C5: `new_slot` is a no-op on an empty process; with `rx_slot` strictly
before `slot_ack` it changes nothing at all; hence a `waiting_ack` process is
never moved (in particular not to `empty`) before its ack slot has
elapsed. -/
theorem new_slot_noop_before_ack (h : harq_proc) (slot_rx : slot_point) :
    (h.tb.state = state_t.empty → h.new_slot slot_rx = h) ∧
    (slot_rx.count < h.slot_ack.count → h.new_slot slot_rx = h) ∧
    (h.tb.state = state_t.waiting_ack → slot_rx.count < h.slot_ack.count →
      (h.new_slot slot_rx).tb.state = state_t.waiting_ack) := by
  refine ⟨?_, ?_, ?_⟩
  · intro he
    simp [harq_proc.new_slot, harq_proc.empty, he]
  · intro hlt
    by_cases he : h.tb.state = state_t.empty <;>
      simp [harq_proc.new_slot, harq_proc.empty, he, hlt]
  · intro hw hlt
    have he : ¬ h.tb.state = state_t.empty := by simp [hw]
    simp [harq_proc.new_slot, harq_proc.empty, he, hlt, hw]

/-- C5 witness: `new_slot` leaves a concrete empty process and a concrete
`waiting_ack` process before its ack slot untouched. -/
theorem new_slot_noop_before_ack_witness :
    (harq_proc.init 1).new_slot (sl 99) = harq_proc.init 1 ∧
    exhausted_h.new_slot (sl 29) = exhausted_h ∧
    (exhausted_h.new_slot (sl 29)).tb.state = state_t.waiting_ack :=
  ⟨(new_slot_noop_before_ack (harq_proc.init 1) (sl 99)).1 rfl,
   (new_slot_noop_before_ack exhausted_h (sl 29)).2.1 (by decide),
   (new_slot_noop_before_ack exhausted_h (sl 29)).2.2 rfl (by decide)⟩

/-- C6: `new_retx` with a grant whose allocation shape differs from the
stored grant (different allocation type, different type-0 RBG count, or
different type-1 contiguous length) fails and returns the process entirely
unchanged — in particular still `pending_retx`. -/
theorem new_retx_shape_mismatch (h : harq_proc) (s a : slot_point)
    (g : prb_grant)
    (hp : h.tb.state = state_t.pending_retx)
    (hm : g.is_alloc_type0 ≠ h.prbs_.is_alloc_type0
        ∨ (g.is_alloc_type0 = true ∧ g.rbg_count ≠ h.prbs_.rbg_count)
        ∨ (g.is_alloc_type1 = true ∧ g.prb_length ≠ h.prbs_.prb_length)) :
    h.new_retx_grant s a g = (false, h) ∧
    (h.new_retx_grant s a g).2.tb.state = state_t.pending_retx := by
  have hfail : h.new_retx_grant s a g = (false, h) := by
    simp only [harq_proc.new_retx_grant, if_pos hm]
  exact ⟨hfail, by rw [hfail]; exact hp⟩

/-- C6 witness: a type-1 grant offered against a stored type-0 grant on a
concrete `pending_retx` process fails and leaves the process unchanged. -/
theorem new_retx_shape_mismatch_witness :
    pending_h.new_retx_grant (sl 25) (sl 29) (prb_grant.alloc_type1 0 3)
      = (false, pending_h) :=
  (new_retx_shape_mismatch pending_h (sl 25) (sl 29)
    (prb_grant.alloc_type1 0 3) rfl (by decide)).1

/-- Enqueueing a batch of events appends them, in FIFO arrival order, to the
tail of `next_events` and never touches `current_events`. -/
theorem foldl_enqueue_eq {α : Type} (es : List α) (l : event_list α) :
    es.foldl event_list.enqueue l
      = { next_events := l.next_events ++ es,
          current_events := l.current_events } := by
  induction es generalizing l with
  | nil => simp
  | cons e es ih => simp [event_list.enqueue, ih]

/-- Closed form of the per-slot drain lists: starting with an empty current
buffer and backlog `buf`, slot 0 drains `buf` and every later slot drains
exactly the events enqueued during the previous slot. -/
theorem run_trace_closed {α : Type} (ess : List (List α)) (buf : List α) :
    run_trace { next_events := buf, current_events := [] } ess
      = (buf :: ess).take ess.length := by
  induction ess generalizing buf with
  | nil => rfl
  | cons es rest ih =>
      simp [run_trace, run_slot, event_list.slot_swap, event_list.drain,
            foldl_enqueue_eq, ih]

/-- C7: in the double-buffered event list (producers append only to
`next_events`; the slot consumer drains only the buffer obtained by the
slot-start swap), the events applied during slots `0..S` are exactly the
events enqueued strictly before slot `S` in FIFO order — so an event
enqueued while slot `S` is being processed is invisible throughout slot `S`
— and the batch drained at slot `S + 1` is exactly the batch enqueued during
slot `S`. -/
theorem event_deferred_one_slot {α : Type} (ess : List (List α)) (S : Nat)
    (hS : S < ess.length) :
    (run_trace { next_events := [], current_events := [] } ess).length
      = ess.length ∧
    ((run_trace { next_events := [], current_events := [] } ess).take
        (S + 1)).flatten = (ess.take S).flatten ∧
    (S + 1 < ess.length →
      (run_trace { next_events := [], current_events := [] } ess)[S + 1]?
        = ess[S]?) := by
  rw [run_trace_closed]
  refine ⟨?_, ?_, ?_⟩
  · simp
  · rw [List.take_take, min_eq_left (by omega : S + 1 ≤ ess.length)]
    simp
  · intro h1
    rw [List.getElem?_take_of_lt (by omega : S + 1 < ess.length)]
    simp

/-- C7 witness: with batches `[1]`, `[2]`, `[3]` enqueued during slots 0, 1,
2, the batch drained at slot 2 is exactly the one enqueued during slot 1. -/
theorem event_deferred_one_slot_witness :
    (run_trace { next_events := [], current_events := [] }
        ([[1], [2], [3]] : List (List Nat)))[2]?
      = ([[1], [2], [3]] : List (List Nat))[1]? :=
  (event_deferred_one_slot ([[1], [2], [3]] : List (List Nat)) 1
    (by decide)).2.2 (by decide)

/-- A successful `new_tx` resets the retransmission counter to zero. -/
theorem new_tx_resets_counter (h : harq_proc) (a b : slot_point)
    (g : prb_grant) (m r : Nat) (hok : (h.new_tx a b g m r).1 = true) :
    (h.new_tx a b g m r).2.tb.n_rtx = 0 := by
  by_cases he : h.tb.state = state_t.empty <;>
    simp [harq_proc.new_tx, harq_proc.empty, he, harq_proc.reset] at hok ⊢

/-- C8: the redundancy version written into the DL/UL DCI by a successful
`new_tx`/`new_retx` (via `fill_dci`) is the entry of the fixed cyclic
schedule `{0, 2, 3, 1}` at position `nof_retx mod 4` of the resulting
process; in particular a new transmission always gets RV 0. -/
theorem dci_rv_schedule (hd : dl_harq_proc) (hu : ul_harq_proc)
    (s a : slot_point) (g : prb_grant) (m r : Nat)
    (dci : dci_dl_t) (dciu : dci_ul_t) :
    ((hd.new_tx s a g m r dci).1 = true →
      (hd.new_tx s a g m r dci).2.2.rv
        = rv_idx.getD ((hd.new_tx s a g m r dci).2.1.base.nof_retx % 4) 0 ∧
      (hd.new_tx s a g m r dci).2.2.rv = 0) ∧
    ((hd.new_retx s a g dci).1 = true →
      (hd.new_retx s a g dci).2.2.rv
        = rv_idx.getD ((hd.new_retx s a g dci).2.1.base.nof_retx % 4) 0) ∧
    ((hu.new_tx s g m r dciu).1 = true →
      (hu.new_tx s g m r dciu).2.2.rv
        = rv_idx.getD ((hu.new_tx s g m r dciu).2.1.base.nof_retx % 4) 0 ∧
      (hu.new_tx s g m r dciu).2.2.rv = 0) ∧
    ((hu.new_retx s g dciu).1 = true →
      (hu.new_retx s g dciu).2.2.rv
        = rv_idx.getD ((hu.new_retx s g dciu).2.1.base.nof_retx % 4) 0) := by
  refine ⟨?_, ?_, ?_, ?_⟩
  · intro hok
    rcases hb : hd.base.new_tx s a g m r with ⟨ok, bb⟩
    cases ok
    · simp [dl_harq_proc.new_tx, hb] at hok
    · have hn : bb.tb.n_rtx = 0 := by
        have hz := new_tx_resets_counter hd.base s a g m r (by rw [hb])
        rwa [hb] at hz
      simp [dl_harq_proc.new_tx, hb, dl_harq_proc.fill_dci,
            harq_proc.nof_retx, hn, rv_idx]
  · intro hok
    rcases hb : hd.base.new_retx_grant s a g with ⟨ok, bb⟩
    cases ok
    · simp [dl_harq_proc.new_retx, hb] at hok
    · simp [dl_harq_proc.new_retx, hb, dl_harq_proc.fill_dci,
            harq_proc.nof_retx]
  · intro hok
    rcases hb : hu.base.new_tx s s g m r with ⟨ok, bb⟩
    cases ok
    · simp [ul_harq_proc.new_tx, hb] at hok
    · have hn : bb.tb.n_rtx = 0 := by
        have hz := new_tx_resets_counter hu.base s s g m r (by rw [hb])
        rwa [hb] at hz
      simp [ul_harq_proc.new_tx, hb, ul_harq_proc.fill_dci,
            harq_proc.nof_retx, hn, rv_idx]
  · intro hok
    rcases hb : hu.base.new_retx_grant s s g with ⟨ok, bb⟩
    cases ok
    · simp [ul_harq_proc.new_retx, hb] at hok
    · simp [ul_harq_proc.new_retx, hb, ul_harq_proc.fill_dci,
            harq_proc.nof_retx]

/-- Concrete DL process, UL process and DCIs for the witnesses. -/
def dl0 : dl_harq_proc := { base := harq_proc.init 0, pdu := [] }

def ul0 : ul_harq_proc := { base := harq_proc.init 0 }

def dci0 : dci_dl_t :=
  { format := dci_format.f1_0, pid := 9, ndi := false, mcs := 9, rv := 7,
    harq_feedback := 9 }

def dciu0 : dci_ul_t := { pid := 9, ndi := false, mcs := 9, rv := 7 }

/-- C8 witness: a concrete DL new transmission writes RV 0 into the DCI. -/
theorem dci_rv_schedule_witness :
    (dl0.new_tx (sl 10) (sl 14) scenarioA_grant 5 4 dci0).2.2.rv = 0 :=
  ((dci_rv_schedule dl0 ul0 (sl 10) (sl 14) scenarioA_grant 5 4 dci0
    dciu0).1 rfl).2

/-- C9: a successful `new_retx` modifies only `slot_tx`, `slot_ack`, the
state (to `waiting_ack`), the ack flag (cleared), the retransmission counter
(incremented by exactly one) and — in the grant-taking overload — the stored
grant, while `ndi`, `mcs`, `tbs`, `max_retx`, `pid` are untouched; and no
operation other than `new_tx` (`new_slot`, `ack_info`, both `new_retx`
overloads, `set_tbs`, `set_mcs`, `reset`) ever changes `ndi`. -/
theorem new_retx_frame_effect (h : harq_proc) (s a : slot_point)
    (g : prb_grant) (hp : h.tb.state = state_t.pending_retx) :
    (h.new_retx s a).1 = true ∧
    (h.new_retx s a).2 = { h with
      slot_tx := s,
      slot_ack := a,
      tb := { h.tb with
        state := state_t.waiting_ack,
        ack_state := false,
        n_rtx := h.tb.n_rtx + 1 } } ∧
    ((h.new_retx_grant s a g).1 = true →
      (h.new_retx_grant s a g).2 = { h with
        slot_tx := s,
        slot_ack := a,
        prbs_ := g,
        tb := { h.tb with
          state := state_t.waiting_ack,
          ack_state := false,
          n_rtx := h.tb.n_rtx + 1 } }) ∧
    (∀ (h' : harq_proc) (sr : slot_point),
      (h'.new_slot sr).tb.ndi = h'.tb.ndi) ∧
    (∀ (h' : harq_proc) (ak : Bool),
      (h'.ack_info ak).2.tb.ndi = h'.tb.ndi) ∧
    (∀ (h' : harq_proc) (s' a' : slot_point),
      (h'.new_retx s' a').2.tb.ndi = h'.tb.ndi) ∧
    (∀ (h' : harq_proc) (s' a' : slot_point) (g' : prb_grant),
      (h'.new_retx_grant s' a' g').2.tb.ndi = h'.tb.ndi) ∧
    (∀ (h' : harq_proc) (t : Nat), (h'.set_tbs t).2.tb.ndi = h'.tb.ndi) ∧
    (∀ (h' : harq_proc) (m' : Nat), (h'.set_mcs m').2.tb.ndi = h'.tb.ndi) ∧
    (∀ h' : harq_proc, h'.reset.tb.ndi = h'.tb.ndi) := by
  refine ⟨?_, ?_, ?_, ?_, ?_, ?_, ?_, ?_, ?_, ?_⟩
  · simp [harq_proc.new_retx, hp]
  · simp [harq_proc.new_retx, hp]
  · intro hok
    by_cases hm : g.is_alloc_type0 ≠ h.prbs_.is_alloc_type0
        ∨ (g.is_alloc_type0 = true ∧ g.rbg_count ≠ h.prbs_.rbg_count)
        ∨ (g.is_alloc_type1 = true ∧ g.prb_length ≠ h.prbs_.prb_length)
    · simp [harq_proc.new_retx_grant, if_pos hm] at hok
    · simp [harq_proc.new_retx_grant, if_neg hm, harq_proc.new_retx, hp]
  · intro h' sr
    by_cases he : h'.empty
    · simp [harq_proc.new_slot, he]
    · by_cases hlt : sr.count < h'.slot_ack.count
      · simp [harq_proc.new_slot, he, hlt]
      · by_cases hw : h'.tb.state = state_t.waiting_ack <;>
          by_cases hb : h'.tb.n_rtx + 1 > h'.max_retx <;>
          simp [harq_proc.new_slot, he, hlt, hw, hb, harq_proc.nof_retx,
                harq_proc.max_nof_retx]
  · intro h' ak
    unfold harq_proc.ack_info
    split_ifs <;> rfl
  · intro h' s' a'
    unfold harq_proc.new_retx
    split_ifs <;> rfl
  · intro h' s' a' g'
    unfold harq_proc.new_retx_grant
    split_ifs
    · rfl
    · unfold harq_proc.new_retx
      split_ifs <;> rfl
  · intro h' t
    unfold harq_proc.set_tbs
    split_ifs <;> rfl
  · intro h' m'
    unfold harq_proc.set_mcs
    split_ifs <;> rfl
  · intro h'
    rfl

/-- C9 witness: on a concrete `pending_retx` process, `new_retx` succeeds
and yields exactly the state predicted by the frame condition. -/
theorem new_retx_frame_effect_witness :
    (pending_h.new_retx (sl 25) (sl 29)).1 = true ∧
    (pending_h.new_retx (sl 25) (sl 29)).2
      = { pending_h with
          slot_tx := sl 25,
          slot_ack := sl 29,
          tb := { pending_h.tb with
            state := state_t.waiting_ack,
            ack_state := false,
            n_rtx := pending_h.tb.n_rtx + 1 } } :=
  ⟨(new_retx_frame_effect pending_h (sl 25) (sl 29) scenarioA_grant rfl).1,
   (new_retx_frame_effect pending_h (sl 25) (sl 29) scenarioA_grant rfl).2.1⟩

/-- C10: right after a successful `new_tx` (before any `set_tbs`) the stored
transport block size is exactly 0, so a positive `ack_info` delivered at
that point succeeds — the process becomes `empty` — but reports 0 bytes. -/
theorem new_tx_tbs_zero (h : harq_proc) (s a : slot_point) (g : prb_grant)
    (m r : Nat) (he : h.tb.state = state_t.empty) :
    (h.new_tx s a g m r).2.tb.tbs = 0 ∧
    ((h.new_tx s a g m r).2.ack_info true).1 = 0 ∧
    ((h.new_tx s a g m r).2.ack_info true).2.tb.state = state_t.empty := by
  simp [harq_proc.new_tx, harq_proc.empty, he, harq_proc.reset,
        harq_proc.ack_info]

/-- C10 witness: after a concrete fresh `new_tx`, `tbs` is 0 and a positive
`ack_info` empties the process reporting 0 bytes. -/
theorem new_tx_tbs_zero_witness :
    ((harq_proc.init 0).new_tx (sl 10) (sl 14) scenarioA_grant 5 4).2.tb.tbs
      = 0 ∧
    (((harq_proc.init 0).new_tx (sl 10) (sl 14)
        scenarioA_grant 5 4).2.ack_info true).1 = 0 :=
  ⟨(new_tx_tbs_zero (harq_proc.init 0) (sl 10) (sl 14) scenarioA_grant 5 4
      rfl).1,
   (new_tx_tbs_zero (harq_proc.init 0) (sl 10) (sl 14) scenarioA_grant 5 4
      rfl).2.1⟩

end srsgnb
